import Mathlib

/-!
Verification of the task-management backend.

Shallow embedding of:
  backend/src/models/task.py        (Task data model and field constraints)
  backend/src/schemas/task.py       (TaskCreate / TaskUpdate payload schemas)
  backend/src/repositories/task_repository.py  (ownership-scoped CRUD)
  backend/src/models/session.py     (Session data model)
  backend/src/services/session_service.py      (session lookup / invalidation)
  backend/src/services/auth_service.py          (logout_user)
  backend/src/api/auth.py           (logout endpoint)
  agent/src/tools/task_list.py      (task_list_tool result envelope)

Database tables are lists of rows; timestamps are natural numbers; the
current clock value is passed explicitly where the code calls
datetime.utcnow().  Each repository method becomes a pure function from
the store (and clock) to its result together with the successor store.
-/

namespace TodoSpec

/-- Task status values, models/task.py `TaskStatus`. -/
inductive TaskStatus
  | pending
  | in_progress
  | completed
deriving DecidableEq

/-- Task priority values, models/task.py `TaskPriority`. -/
inductive TaskPriority
  | low
  | medium
  | high
  | critical
deriving DecidableEq

/-- A row of the `tasks` table, models/task.py `Task` / `TaskBase`.
Ids are naturals standing for UUIDs, datetimes are naturals. -/
structure Task where
  id : Nat
  title : String
  description : Option String
  status : TaskStatus
  priority : TaskPriority
  user_id : Nat
  due_date : Option Nat
  created_at : Nat
  updated_at : Nat
deriving DecidableEq

/-- The title constraint declared on the Task model,
`Field(min_length=1, max_length=200)` (models/task.py line 34).  The
declaration is dead at runtime: the request schema `TaskCreate` carries
no length constraint and `Task` is a table model, which skips field
validation, so no code on the create path checks this predicate. -/
def validTitle (s : String) : Prop := 1 ≤ s.length ∧ s.length ≤ 200

instance (s : String) : Decidable (validTitle s) := by
  unfold validTitle; infer_instance

/-- The `TaskCreate` request schema (schemas/task.py): title required,
description/due_date optional, status defaults to pending and priority to
medium. -/
structure TaskCreate where
  title : String
  description : Option String := none
  status : TaskStatus := .pending
  priority : TaskPriority := .medium
  due_date : Option Nat := none
deriving DecidableEq

/-- A creation request as it arrives on the wire, before the schema's
defaults are applied: status and priority may be left unspecified. -/
structure TaskCreatePayload where
  title : String
  description : Option String := none
  status : Option TaskStatus := none
  priority : Option TaskPriority := none
  due_date : Option Nat := none
deriving DecidableEq

/-- Pydantic parsing of a wire payload into `TaskCreate`: unspecified
status becomes pending, unspecified priority becomes medium
(schemas/task.py `TaskBase` defaults). -/
def parseTaskCreate (p : TaskCreatePayload) : TaskCreate :=
  { title := p.title
    description := p.description
    status := p.status.getD .pending
    priority := p.priority.getD .medium
    due_date := p.due_date }

/-- The `TaskUpdate` request schema (schemas/task.py): every field
optional.  `some v` means the field was explicitly present in the partial
update with value `v`; `none` means it was absent (pydantic
`exclude_unset`).  For the fields that are themselves nullable on Task
(description, due_date) the carried value is again an Option. -/
structure TaskUpdate where
  title : Option String := none
  description : Option (Option String) := none
  status : Option TaskStatus := none
  priority : Option TaskPriority := none
  due_date : Option (Option Nat) := none
deriving DecidableEq

/-- The tasks table: a list of rows.  The database guarantees primary-key
uniqueness of `id`; theorems that need it take it as a hypothesis. -/
abbrev TaskStore := List Task

/-- task_repository.py `get_task_by_id`: select the first row whose id
and user_id both match (`select(Task).where(Task.id == task_id,
Task.user_id == user_id)` then `.first()`). -/
def getTaskById (store : TaskStore) (task_id user_id : Nat) : Option Task :=
  store.find? (fun t => t.id == task_id && t.user_id == user_id)

/-- The row filter of task_repository.py `get_tasks_by_user`: owner
match, then optional exact-match status and priority filters. -/
def matchesFilters (t : Task) (user_id : Nat)
    (status : Option TaskStatus) (priority : Option TaskPriority) : Bool :=
  t.user_id == user_id
    && (match status with | none => true | some s => t.status == s)
    && (match priority with | none => true | some p => t.priority == p)

/-- task_repository.py `get_tasks_by_user`: filter on owner and the
optional status/priority filters, then `.offset(offset).limit(limit)`. -/
def getTasksByUser (store : TaskStore) (user_id : Nat)
    (status : Option TaskStatus) (priority : Option TaskPriority)
    (limit : Nat) (offset : Nat) : List Task :=
  (((store.filter (fun t => matchesFilters t user_id status priority)).drop
      offset).take limit)

/-- task_repository.py `create_task`: build a Task row straight from the
payload fields and append it — no validation runs on this path (the
request schema has no length constraints and table models skip field
validation), so creation cannot fail.  `fresh_id` stands for the
generated UUID; `column_default` is the single `datetime.utcnow()` value
captured at import time by the created_at/updated_at column defaults
(models/task.py lines 47-48), which both timestamp fields receive. -/
def createTask (store : TaskStore) (task_data : TaskCreate)
    (user_id fresh_id column_default : Nat) : Task × TaskStore :=
  let t : Task :=
    { id := fresh_id
      title := task_data.title
      description := task_data.description
      status := task_data.status
      priority := task_data.priority
      user_id := user_id
      due_date := task_data.due_date
      created_at := column_default
      updated_at := column_default }
  (t, store ++ [t])

/-- The `for field, value in task_data.model_dump(exclude_unset=True)`
loop of task_repository.py `update_task`: overwrite exactly the fields
that were explicitly present in the partial update. -/
def applyUpdate (t : Task) (u : TaskUpdate) : Task :=
  { t with
    title := u.title.getD t.title
    description := u.description.getD t.description
    status := u.status.getD t.status
    priority := u.priority.getD t.priority
    due_date := u.due_date.getD t.due_date }

/-- task_repository.py `update_task`: look the row up scoped by owner;
on a miss return None and leave the table alone; otherwise apply the
explicitly-present fields, set updated_at to now, and write the row
back under its primary key. -/
def updateTask (store : TaskStore) (task_id user_id : Nat)
    (task_data : TaskUpdate) (now : Nat) : Option Task × TaskStore :=
  match getTaskById store task_id user_id with
  | none => (none, store)
  | some t =>
      let t' := { applyUpdate t task_data with updated_at := now }
      (some t', store.map (fun x => if x.id == t.id then t' else x))

/-- task_repository.py `delete_task`: look the row up scoped by owner;
on a miss return false and leave the table alone; otherwise delete the
found row (by primary key) and return true. -/
def deleteTask (store : TaskStore) (task_id user_id : Nat) :
    Bool × TaskStore :=
  match getTaskById store task_id user_id with
  | none => (false, store)
  | some t => (true, store.filter (fun x => x.id != t.id))

/-- task_repository.py `complete_task`: look the row up scoped by owner;
on a miss return None; otherwise set status to completed, set updated_at
to now, and write the row back. -/
def completeTask (store : TaskStore) (task_id user_id : Nat) (now : Nat) :
    Option Task × TaskStore :=
  match getTaskById store task_id user_id with
  | none => (none, store)
  | some t =>
      let t' := { t with status := TaskStatus.completed, updated_at := now }
      (some t', store.map (fun x => if x.id == t.id then t' else x))

/-- The update payload `{status: "completed"}` and nothing else. -/
def onlyStatusCompleted : TaskUpdate := { status := some .completed }

/-- The result envelope of agent/src/tools/task_list.py
`TaskListResult`. -/
structure TaskListResult where
  success : Bool
  tasks : List Task
  total_count : Nat
  error : Option String
deriving DecidableEq

/-- agent/src/tools/task_list.py `task_list_tool`, successful-response
path: the backend GET /tasks/ returns the page computed by
`get_tasks_by_user`, and the tool reports `total_count =
len(response_data)`. -/
def taskListTool (store : TaskStore) (user_id : Nat)
    (status_filter : Option TaskStatus) (priority_filter : Option TaskPriority)
    (limit : Nat) (offset : Nat) : TaskListResult :=
  let response := getTasksByUser store user_id status_filter priority_filter
    limit offset
  { success := true
    tasks := response
    total_count := response.length
    error := none }

/-- A row of the `sessions` table, models/session.py `SessionModel`. -/
structure SessionRow where
  id : Nat
  user_id : Nat
  token : String
  expires_at : Nat
  created_at : Nat
  ip_address : Option String
  user_agent : Option String
deriving DecidableEq

/-- The sessions table: a list of rows. -/
abbrev SessionStore := List SessionRow

/-- session_service.py `get_session_by_token`: select the first row with
the given token whose `expires_at > datetime.utcnow()`; an expired row is
filtered out of the query, never returned. -/
def getSessionByToken (store : SessionStore) (token : String) (now : Nat) :
    Option SessionRow :=
  store.find? (fun s => s.token == token && now < s.expires_at)

/-- session_service.py `invalidate_session`: find the session through
`get_session_by_token`; if found, delete the row and return true,
otherwise return false. -/
def invalidateSession (store : SessionStore) (token : String) (now : Nat) :
    Bool × SessionStore :=
  match getSessionByToken store token now with
  | none => (false, store)
  | some s => (true, store.filter (fun x => x.id != s.id))

/-- auth_service.py `logout_user`: returns True unconditionally and
performs no action on any store. -/
def logoutUser (_user_id : String) : Bool := true

/-- api/auth.py `logout` endpoint: calls `logout_user` on the
authenticated caller's id and reports success; no code in the path reads
or writes the sessions table, so it passes through unchanged. -/
def logoutEndpoint (sessions : SessionStore) (user_id : String) :
    Bool × SessionStore :=
  (logoutUser user_id, sessions)

/-- A concrete task used to instantiate theorems with hypotheses. -/
def sampleTask (i : Nat) : Task :=
  { id := i
    title := "t"
    description := none
    status := .pending
    priority := .medium
    user_id := 1
    due_date := none
    created_at := 0
    updated_at := 0 }

/-- A concrete task owned by user 7. -/
def ownedTask : Task :=
  { id := 1
    title := "buy milk"
    description := some "two liters"
    status := .pending
    priority := .high
    user_id := 7
    due_date := some 99
    created_at := 3
    updated_at := 3 }

/-- A concrete session row, expiring at time 10. -/
def sampleSession : SessionRow :=
  { id := 1
    user_id := 7
    token := "tok"
    expires_at := 10
    created_at := 0
    ip_address := none
    user_agent := none }

/-- Five concrete tasks, all owned by user 1. -/
def store5 : TaskStore :=
  [sampleTask 1, sampleTask 2, sampleTask 3, sampleTask 4, sampleTask 5]

lemma getTaskById_eq_none_iff (store : TaskStore) (tid uid : Nat) :
    getTaskById store tid uid = none ↔
      ∀ t ∈ store, t.id = tid → t.user_id ≠ uid := by
  unfold getTaskById
  rw [List.find?_eq_none]
  constructor
  · intro h t ht h1 h2
    have := h t ht
    simp [h1, h2] at this
  · intro h t ht
    simp only [Bool.and_eq_true, beq_iff_eq, not_and]
    exact fun h1 => h t ht h1

lemma getTaskById_some {store : TaskStore} {tid uid : Nat} {t : Task}
    (h : getTaskById store tid uid = some t) :
    t ∈ store ∧ t.id = tid ∧ t.user_id = uid := by
  unfold getTaskById at h
  have hmem := List.mem_of_find?_eq_some h
  have hp := List.find?_some h
  simp only [Bool.and_eq_true, beq_iff_eq] at hp
  exact ⟨hmem, hp.1, hp.2⟩

lemma getSessionByToken_eq_none (store : SessionStore) (token : String)
    (now : Nat)
    (hall : ∀ r ∈ store, r.token = token → r.expires_at ≤ now) :
    getSessionByToken store token now = none := by
  unfold getSessionByToken
  rw [List.find?_eq_none]
  intro r hr
  simp only [Bool.and_eq_true, beq_iff_eq, decide_eq_true_eq, not_and]
  intro h1 h2
  exact absurd h2 (not_lt.mpr (hall r hr h1))

/-- Claim C1: for a task id whose rows (if any) belong to a different
owner than the caller, get, update, delete and complete return exactly
the results they return for an id absent from the table: None for
get/update/complete and false for delete, with the table untouched;
foreign ownership is indistinguishable from non-existence. -/
theorem foreign_task_indistinguishable_from_absent
    (store : TaskStore) (tid tid' caller : Nat) (u : TaskUpdate) (now : Nat)
    (hforeign : ∀ t ∈ store, t.id = tid → t.user_id ≠ caller)
    (habsent : ∀ t ∈ store, t.id ≠ tid') :
    getTaskById store tid caller = getTaskById store tid' caller ∧
    updateTask store tid caller u now = updateTask store tid' caller u now ∧
    deleteTask store tid caller = deleteTask store tid' caller ∧
    completeTask store tid caller now = completeTask store tid' caller now ∧
    getTaskById store tid caller = none ∧
    updateTask store tid caller u now = (none, store) ∧
    deleteTask store tid caller = (false, store) ∧
    completeTask store tid caller now = (none, store) := by
  have h1 : getTaskById store tid caller = none :=
    (getTaskById_eq_none_iff store tid caller).mpr hforeign
  have h2 : getTaskById store tid' caller = none :=
    (getTaskById_eq_none_iff store tid' caller).mpr
      (fun t ht h => absurd h (habsent t ht))
  refine ⟨by rw [h1, h2], ?_, ?_, ?_, h1, ?_, ?_, ?_⟩ <;>
    simp [updateTask, deleteTask, completeTask, h1, h2]

/-- Witness for C1 at a concrete table: one task with id 1 owned by
user 7, queried by caller 8 under id 1 (foreign) and id 2 (absent). -/
theorem foreign_task_indistinguishable_from_absent_witness :
    getTaskById [ownedTask] 1 8 = getTaskById [ownedTask] 2 8 ∧
    updateTask [ownedTask] 1 8 onlyStatusCompleted 5 =
      updateTask [ownedTask] 2 8 onlyStatusCompleted 5 ∧
    deleteTask [ownedTask] 1 8 = deleteTask [ownedTask] 2 8 ∧
    completeTask [ownedTask] 1 8 5 = completeTask [ownedTask] 2 8 5 ∧
    getTaskById [ownedTask] 1 8 = none ∧
    updateTask [ownedTask] 1 8 onlyStatusCompleted 5 = (none, [ownedTask]) ∧
    deleteTask [ownedTask] 1 8 = (false, [ownedTask]) ∧
    completeTask [ownedTask] 1 8 5 = (none, [ownedTask]) :=
  foreign_task_indistinguishable_from_absent [ownedTask] 1 2 8
    onlyStatusCompleted 5 (by decide) (by decide)

/-- Claim C2: when every session row carrying the token has expires_at
at or before the current time, get_by_token returns None even though the
row is still present in the store; validity is re-checked against
expires_at at every read. -/
theorem expired_session_never_returned
    (store : SessionStore) (token : String) (now : Nat) (s : SessionRow)
    (hmem : s ∈ store) (htok : s.token = token) (hexp : s.expires_at ≤ now)
    (hall : ∀ r ∈ store, r.token = token → r.expires_at ≤ now) :
    getSessionByToken store token now = none ∧ s ∈ store :=
  ⟨getSessionByToken_eq_none store token now hall, hmem⟩

/-- Witness for C2: a store holding one session with token "tok"
expiring at time 10, read at time 10. -/
theorem expired_session_never_returned_witness :
    getSessionByToken [sampleSession] "tok" 10 = none ∧
    sampleSession ∈ [sampleSession] :=
  expired_session_never_returned [sampleSession] "tok" 10 sampleSession
    (by decide) (by decide) (by decide) (by decide)

/-- Claim C10: invalidating a token whose session row exists but is
expired returns false and leaves the store unchanged; the expired row is
neither deleted nor modified. -/
theorem invalidate_expired_session_noop
    (store : SessionStore) (token : String) (now : Nat) (s : SessionRow)
    (hmem : s ∈ store) (htok : s.token = token) (hexp : s.expires_at ≤ now)
    (hall : ∀ r ∈ store, r.token = token → r.expires_at ≤ now) :
    invalidateSession store token now = (false, store) ∧
    s ∈ (invalidateSession store token now).2 := by
  have h := getSessionByToken_eq_none store token now hall
  unfold invalidateSession
  rw [h]
  exact ⟨rfl, hmem⟩

/-- Witness for C10: invalidating the expired session of the C2 witness
store returns false and leaves the row in place. -/
theorem invalidate_expired_session_noop_witness :
    invalidateSession [sampleSession] "tok" 10 = (false, [sampleSession]) ∧
    sampleSession ∈ (invalidateSession [sampleSession] "tok" 10).2 :=
  invalidate_expired_session_noop [sampleSession] "tok" 10 sampleSession
    (by decide) (by decide) (by decide) (by decide)

/-- Claim C3 (divergence): the logout endpoint reports success but
invalidates nothing — the sessions table passes through unchanged, and
every token lookup answers exactly as it did before the logout, so the
caller's session is still valid after a successful logout. -/
theorem logout_leaves_every_session_valid
    (sessions : SessionStore) (user_id : String) (token : String)
    (now : Nat) :
    (logoutEndpoint sessions user_id).1 = true ∧
    (logoutEndpoint sessions user_id).2 = sessions ∧
    getSessionByToken (logoutEndpoint sessions user_id).2 token now =
      getSessionByToken sessions token now :=
  ⟨rfl, rfl, rfl⟩

/-- Counterexample to C4: over a table of 5 tasks matching the filters,
the list tool called with limit=2, offset=0 returns 2 tasks but reports
total_count = 2, not the pre-pagination matching count 5. -/
theorem list_total_count_is_not_prepagination_count :
    (store5.filter (fun t => matchesFilters t 1 none none)).length = 5 ∧
    (taskListTool store5 1 none none 2 0).tasks.length = 2 ∧
    (taskListTool store5 1 none none 2 0).total_count = 2 ∧
    ¬ (taskListTool store5 1 none none 2 0).total_count = 5 := by
  decide

/-- Claim C4 as amended: list returns the page of tasks selected by
limit and offset, and total_count equals the number of tasks in that
returned page — the count after pagination, not before it. -/
theorem list_total_count_is_page_length
    (store : TaskStore) (user_id : Nat) (sf : Option TaskStatus)
    (pf : Option TaskPriority) (limit offset : Nat) :
    (taskListTool store user_id sf pf limit offset).tasks =
      getTasksByUser store user_id sf pf limit offset ∧
    (taskListTool store user_id sf pf limit offset).total_count =
      (taskListTool store user_id sf pf limit offset).tasks.length :=
  ⟨rfl, rfl⟩

/-- Claim C5: updating an existing owned task changes exactly the fields
explicitly present in the partial payload, keeps every absent field at
its prior value, and — whenever the clock has moved past the task's
stored updated_at — sets updated_at strictly later than before. -/
theorem update_changes_exactly_present_fields
    (store : TaskStore) (tid uid : Nat) (u : TaskUpdate) (now : Nat)
    (t : Task) (hfind : getTaskById store tid uid = some t)
    (hclock : t.updated_at < now) :
    ∃ t', (updateTask store tid uid u now).1 = some t' ∧
      t'.title = u.title.getD t.title ∧
      t'.description = u.description.getD t.description ∧
      t'.status = u.status.getD t.status ∧
      t'.priority = u.priority.getD t.priority ∧
      t'.due_date = u.due_date.getD t.due_date ∧
      t'.id = t.id ∧ t'.user_id = t.user_id ∧ t'.created_at = t.created_at ∧
      t'.updated_at = now ∧ t.updated_at < t'.updated_at := by
  unfold updateTask
  rw [hfind]
  exact ⟨_, rfl, rfl, rfl, rfl, rfl, rfl, rfl, rfl, rfl, rfl, hclock⟩

/-- Witness for C5: updating ownedTask (updated_at 3) with only
{status: completed} at time 5 keeps title, description, priority and
due_date and moves updated_at strictly forward to 5. -/
theorem update_changes_exactly_present_fields_witness :
    ∃ t', (updateTask [ownedTask] 1 7 onlyStatusCompleted 5).1 = some t' ∧
      t'.title = onlyStatusCompleted.title.getD ownedTask.title ∧
      t'.description =
        onlyStatusCompleted.description.getD ownedTask.description ∧
      t'.status = onlyStatusCompleted.status.getD ownedTask.status ∧
      t'.priority = onlyStatusCompleted.priority.getD ownedTask.priority ∧
      t'.due_date = onlyStatusCompleted.due_date.getD ownedTask.due_date ∧
      t'.id = ownedTask.id ∧ t'.user_id = ownedTask.user_id ∧
      t'.created_at = ownedTask.created_at ∧
      t'.updated_at = 5 ∧ ownedTask.updated_at < t'.updated_at :=
  update_changes_exactly_present_fields [ownedTask] 1 7 onlyStatusCompleted 5
    ownedTask (by decide) (by decide)

/-- Claim C8: complete produces, for every store, id, owner and clock
value, exactly the same result and the same post-state as update called
with the single explicitly-present field {status: completed}. -/
theorem complete_equals_update_status_completed
    (store : TaskStore) (tid uid now : Nat) :
    completeTask store tid uid now =
      updateTask store tid uid onlyStatusCompleted now := by
  unfold completeTask updateTask
  cases h : getTaskById store tid uid with
  | none => rfl
  | some t => rfl

/-- Claim C6 (divergence): the title constraint declared on the Task
model is never enforced on the create path — creating with an empty
title, which violates validTitle, still appends a row carrying that
empty title, and createTask has no failure outcome at all. -/
theorem create_accepts_empty_title :
    ¬ validTitle (createTask [] { title := "" } 7 1 0).1.title ∧
    (createTask [] { title := "" } 7 1 0).1.title = "" ∧
    (createTask [] { title := "" } 7 1 0).2 =
      [(createTask [] { title := "" } 7 1 0).1] := by
  refine ⟨?_, rfl, rfl⟩
  decide

/-- Claim C7: delete returns a boolean and never raises — true exactly
when an owned task with that id exists, in which case the id is removed;
false leaves the table unchanged, and a second delete of the same id by
the same caller always returns false. -/
theorem delete_bool_semantics (store : TaskStore) (tid uid : Nat) :
    ((deleteTask store tid uid).1 = true ↔
      ∃ t ∈ store, t.id = tid ∧ t.user_id = uid) ∧
    ((deleteTask store tid uid).1 = true →
      ∀ t ∈ (deleteTask store tid uid).2, t.id ≠ tid) ∧
    ((deleteTask store tid uid).1 = false →
      (deleteTask store tid uid).2 = store) ∧
    (deleteTask (deleteTask store tid uid).2 tid uid).1 = false := by
  cases h : getTaskById store tid uid with
  | none =>
      have hall := (getTaskById_eq_none_iff store tid uid).mp h
      have hd : deleteTask store tid uid = (false, store) := by
        unfold deleteTask; rw [h]
      have hd1 : (deleteTask store tid uid).1 = false := by rw [hd]
      have hd2 : (deleteTask store tid uid).2 = store := by rw [hd]
      refine ⟨?_, ?_, fun _ => hd2, ?_⟩
      · rw [hd1]
        constructor
        · intro hc; cases hc
        · rintro ⟨t, ht, h1, h2⟩
          exact absurd h2 (hall t ht h1)
      · rw [hd1]; intro hc; cases hc
      · rw [hd2, hd1]
  | some t =>
      obtain ⟨hmem, hid, huid⟩ := getTaskById_some h
      have hgone : ∀ x ∈ store.filter (fun x => x.id != t.id), x.id ≠ tid := by
        intro x hx
        have hne := (List.mem_filter.mp hx).2
        simp only [bne_iff_ne, ne_eq] at hne
        rw [← hid]
        exact hne
      have hd : deleteTask store tid uid =
          (true, store.filter (fun x => x.id != t.id)) := by
        unfold deleteTask; rw [h]
      have hd1 : (deleteTask store tid uid).1 = true := by rw [hd]
      have hd2 : (deleteTask store tid uid).2 =
          store.filter (fun x => x.id != t.id) := by rw [hd]
      have hnone : getTaskById (store.filter (fun x => x.id != t.id))
          tid uid = none :=
        (getTaskById_eq_none_iff _ tid uid).mpr
          (fun x hx h1 _ => hgone x hx h1)
      refine ⟨?_, ?_, ?_, ?_⟩
      · rw [hd1]
        exact iff_of_true rfl ⟨t, hmem, hid, huid⟩
      · intro _
        rw [hd2]
        exact hgone
      · rw [hd1]; intro hc; cases hc
      · rw [hd2]
        unfold deleteTask
        rw [hnone]

/-- Witness for C7: deleting the owned task with id 1 as its owner 7
returns true, and deleting id 1 again afterwards returns false. -/
theorem delete_bool_semantics_witness :
    (deleteTask [ownedTask] 1 7).1 = true ∧
    (deleteTask (deleteTask [ownedTask] 1 7).2 1 7).1 = false :=
  ⟨(delete_bool_semantics [ownedTask] 1 7).1.mpr
      ⟨ownedTask, List.mem_cons_self _ _, rfl, rfl⟩,
    (delete_bool_semantics [ownedTask] 1 7).2.2.2⟩

/-- Claim C9: every creation parsed from a wire payload yields a task
whose owner id is the authenticated caller's id, whose status is pending
unless a status was specified, and whose priority is medium unless a
priority was specified. -/
theorem create_sets_owner_and_defaults
    (store : TaskStore) (p : TaskCreatePayload) (uid fid dflt : Nat) :
    ∃ t, createTask store (parseTaskCreate p) uid fid dflt =
        (t, store ++ [t]) ∧
      t.user_id = uid ∧
      t.status = p.status.getD .pending ∧
      t.priority = p.priority.getD .medium := by
  unfold createTask parseTaskCreate
  exact ⟨_, rfl, rfl, rfl, rfl⟩

end TodoSpec


